import Mathlib

/-!
Verification of the NeuroFi ML-service core (technical analysis, forecast
stabilization, sentiment aggregation, recommendation fusion) against its
natural-language specification.  The Python services are shallowly embedded:
prices and scores are exact rationals (`ℚ`) where the code only performs
field arithmetic, and reals (`ℝ`) where `tanh` / `sqrt` appear; fallible
operations return `Except`; the per-(symbol, timeframe) prediction cache is
explicit state threaded through the embedded operation.
-/

namespace NeuroFi

/-- One OHLCV candle as consumed by the analysis code
(`technical_analyzer.py`); only the fields the analyzed operations read are
kept (`high`, `low`, `close`, `volume`). -/
structure Bar where
  high : ℚ
  low : ℚ
  close : ℚ
  volume : ℚ
deriving DecidableEq, Repr

/-- Centered rolling window of width `w` at position `i` over `xs`, as
computed by pandas `Series.rolling(window=w, center=True)`: the window at
label `i` spans indices `[i + 1 + (w-1)/2 - w, i + (w-1)/2]` (for `w = 20`
that is `[i-10, i+9]`).  Used by `_find_support_resistance`. -/
def centeredWindow (xs : List ℚ) (w i : ℕ) : List ℚ :=
  (xs.drop (i + 1 + (w - 1) / 2 - w)).take w

/-- Python `sorted(list(set(...)))`: the distinct values in ascending
order. -/
def pySortedUnique (l : List ℚ) : List ℚ :=
  l.dedup.insertionSort (· ≤ ·)

/-- Embedding of `TechnicalAnalyzer._find_support_resistance` (lines
276-297): a bar strictly inside the series whose high (resp. low) equals the
centered rolling-window maximum (resp. minimum) is a resistance (resp.
support) candidate; candidates are deduplicated, sorted (support ascending,
resistance descending via Python `sorted(..., reverse=True)`, i.e. the
reversed ascending sort of the distinct values) and truncated to 5 entries.
Returns `(support_levels, resistance_levels)`. -/
def findSupportResistance (bars : List Bar) (window : ℕ := 20) : List ℚ × List ℚ :=
  let highs := bars.map (·.high)
  let lows := bars.map (·.low)
  let idxs := List.range' window (bars.length - 2 * window)
  let resistanceCand := idxs.filterMap fun i =>
    match highs.get? i with
    | some h => if (centeredWindow highs window i).max? = some h then some h else none
    | none => none
  let supportCand := idxs.filterMap fun i =>
    match lows.get? i with
    | some l => if (centeredWindow lows window i).min? = some l then some l else none
    | none => none
  let resistance := ((pySortedUnique resistanceCand).reverse).take 5
  let support := (pySortedUnique supportCand).take 5
  (support, resistance)

/-- A 61-bar series: bars 0-29 trade in a low band (high 12, low 10),
bars 30-60 in a much higher band (high 100, low 95).  Bar 20 is a local
maximum of the low band and bar 40 a local minimum of the high band, so the
support level 95 exceeds the resistance level 12. -/
def barsTrendingCx : List Bar :=
  (List.range 61).map fun i =>
    if i < 30 then { high := 12, low := 10, close := 11, volume := 1 }
    else { high := 100, low := 95, close := 97, volume := 1 }

/-- Indicator snapshot produced by `_calculate_indicators`.  Each field is
`none` when the underlying `ta`-library value is unavailable (insufficient
history, `None`, or the whole computation failed and returned `{}`); the
numeric computation itself wraps the external `ta` library and is abstracted
as a value of this type.  Only the fields the embedded signal/trend code
reads are kept. -/
structure IndicatorSet where
  sma_20 : Option ℚ
  sma_50 : Option ℚ
  macd : Option ℚ
  macd_signal : Option ℚ
  rsi : Option ℚ
  stoch_k : Option ℚ
  stoch_d : Option ℚ
  bb_upper : Option ℚ
  bb_lower : Option ℚ
  adx : Option ℚ
  adx_pos : Option ℚ
  adx_neg : Option ℚ
  volume_sma : Option ℚ
deriving DecidableEq, Repr

/-- RSI signal bucket (`signals['rsi']`); `neutral` also stands for a
missing key, the consumer default. -/
inductive RsiSig | overbought | oversold | neutral
deriving DecidableEq, Repr

/-- MACD signal bucket (`signals['macd']`); `neutral` stands for a missing
key, the consumer default. -/
inductive MacdSig | bullish | bearish | neutral
deriving DecidableEq, Repr

/-- Moving-average trend bucket (`signals['ma_trend']`); `neutral` stands
for a missing key (the key is not written when `sma_20`/`sma_50` are
unavailable or zero). -/
inductive MaSig | strong_bullish | weak_bullish | weak_bearish | strong_bearish | neutral
deriving DecidableEq, Repr

/-- Bollinger signal bucket (`signals['bollinger']`); `neutral` also stands
for a missing key. -/
inductive BollSig | overbought | oversold | neutral
deriving DecidableEq, Repr

/-- Stochastic signal bucket (`signals['stochastic']`). -/
inductive StochSig | overbought | oversold | neutral
deriving DecidableEq, Repr

/-- ADX trend-strength bucket (`signals['trend_strength']`); `weak` is also
the consumer default for a missing key. -/
inductive StrengthSig | very_strong | strong | weak
deriving DecidableEq, Repr

/-- Volume signal bucket (`signals['volume']`); `normal` is also the
consumer default for a missing key. -/
inductive VolumeSig | high | low | normal
deriving DecidableEq, Repr

/-- Overall trend label returned by `_determine_trend`; `sideways` is also
the consumer default for a missing key. -/
inductive TrendLabel | bullish | bearish | sideways | unknown
deriving DecidableEq, Repr

/-- Signal set produced by `_generate_signals`. -/
structure Signals where
  rsi : RsiSig
  macd : MacdSig
  ma_trend : MaSig
  bollinger : BollSig
  stochastic : StochSig
  trend_strength : StrengthSig
  volume : VolumeSig
deriving DecidableEq, Repr

/-- Close of the most recent bar (`df['close'].iloc[-1]`), defaulting to 0
for an empty series (the Python code never reaches this case with an empty
frame on the analyzed paths). -/
def lastClose (bars : List Bar) : ℚ :=
  ((bars.map (·.close)).getLast?).getD 0

/-- Volume of the most recent bar (`df['volume'].iloc[-1]`), defaulting to 0
for an empty series. -/
def lastVolume (bars : List Bar) : ℚ :=
  ((bars.map (·.volume)).getLast?).getD 0

/-- Embedding of `TechnicalAnalyzer._generate_signals` (lines 190-274):
fixed-threshold bucketing of the latest indicator snapshot.  Missing
indicator values take the dictionary defaults of the source (`rsi` 50,
`macd`/`macd_signal` 0, `stoch` 50, `adx` 25); the `ma_trend`, `bollinger`
and `volume` keys are only written when the indicators involved are present
and truthy (Python truthiness: a 0.0 moving average is falsy), otherwise the
consumer-default label is used. -/
def generateSignals (bars : List Bar) (ind : IndicatorSet) : Signals :=
  let currentPrice := lastClose bars
  let rsi := ind.rsi.getD 50
  let rsiSig : RsiSig :=
    if rsi > 70 then .overbought else if rsi < 30 then .oversold else .neutral
  let macdSig : MacdSig :=
    if ind.macd.getD 0 > ind.macd_signal.getD 0 then .bullish else .bearish
  let maSig : MaSig :=
    match ind.sma_20, ind.sma_50 with
    | some s20, some s50 =>
      if s20 = 0 ∨ s50 = 0 then .neutral
      else if currentPrice > s20 ∧ s20 > s50 then .strong_bullish
      else if currentPrice > s20 ∧ s20 < s50 then .weak_bullish
      else if currentPrice < s20 ∧ s20 < s50 then .strong_bearish
      else .weak_bearish
    | _, _ => .neutral
  let bollSig : BollSig :=
    match ind.bb_upper, ind.bb_lower with
    | some up, some lo =>
      if up = 0 ∨ lo = 0 then .neutral
      else if currentPrice > up then .overbought
      else if currentPrice < lo then .oversold
      else .neutral
    | _, _ => .neutral
  let stochK := ind.stoch_k.getD 50
  let stochD := ind.stoch_d.getD 50
  let stochSig : StochSig :=
    if stochK > 80 ∧ stochD > 80 then .overbought
    else if stochK < 20 ∧ stochD < 20 then .oversold
    else .neutral
  let adx := ind.adx.getD 25
  let strengthSig : StrengthSig :=
    if adx > 50 then .very_strong else if adx > 25 then .strong else .weak
  let volumeSig : VolumeSig :=
    match ind.volume_sma with
    | some vs =>
      if vs ≠ 0 ∧ lastVolume bars > vs * 1.5 then .high
      else if vs ≠ 0 ∧ lastVolume bars < vs * 0.5 then .low
      else .normal
    | none => .normal
  { rsi := rsiSig, macd := macdSig, ma_trend := maSig, bollinger := bollSig,
    stochastic := stochSig, trend_strength := strengthSig, volume := volumeSig }

/-- Close of the 10th most recent bar (`df['close'].iloc[-10]`), defaulting
to 0; only read when at least 10 bars exist. -/
def closeTenBack (bars : List Bar) : ℚ :=
  (((bars.map (·.close)).get? (bars.length - 10)).getD 0)

/-- Embedding of `TechnicalAnalyzer._determine_trend` (lines 303-378):
majority-vote accumulation of +1 or -1 over the evaluable trend factors
(price vs `sma_20`, `sma_20` vs `sma_50`, MACD vs its signal line,
ADX +DI vs -DI, and 10-bar momentum thresholded at plus or minus 2%),
normalized by the factor count; ratio above 0.6 is `bullish`, below -0.6
`bearish`, else `sideways`; strength is the absolute ratio. -/
def determineTrend (bars : List Bar) (ind : IndicatorSet) : TrendLabel × ℚ :=
  let currentPrice := lastClose bars
  let smaVotes : ℤ × ℕ :=
    match ind.sma_20, ind.sma_50 with
    | some s20, some s50 =>
      if s20 = 0 ∨ s50 = 0 then (0, 0)
      else ((if currentPrice > s20 then 1 else -1) + (if s20 > s50 then 1 else -1), 2)
    | _, _ => (0, 0)
  let macdVote : ℤ := if ind.macd.getD 0 > ind.macd_signal.getD 0 then 1 else -1
  let adxVote : ℤ := if ind.adx_pos.getD 25 > ind.adx_neg.getD 25 then 1 else -1
  let momentumVotes : ℤ × ℕ :=
    if bars.length ≥ 10 then
      let base := closeTenBack bars
      let change := (currentPrice - base) / base
      (if change > 0.02 then 1 else if change < -0.02 then -1 else 0, 1)
    else (0, 0)
  let trendScore : ℤ := smaVotes.1 + macdVote + adxVote + momentumVotes.1
  let factors : ℕ := smaVotes.2 + 1 + 1 + momentumVotes.2
  if factors > 0 then
    let ratio : ℚ := (trendScore : ℚ) / (factors : ℚ)
    (if ratio > 0.6 then .bullish else if ratio < -0.6 then .bearish else .sideways, |ratio|)
  else (.unknown, 0)

/-- Result record of `TechnicalAnalyzer.analyze`. -/
structure TechnicalResult where
  indicators : IndicatorSet
  signals : Signals
  support_levels : List ℚ
  resistance_levels : List ℚ
  trend : TrendLabel
  strength : ℚ
deriving DecidableEq, Repr

/-- Error raised by `TechnicalAnalyzer.analyze` when fewer than 50 bars are
available (the `ValueError` at line 53, the spec's `InsufficientDataError`). -/
inductive AnalyzeError | insufficientData
deriving DecidableEq, Repr

/-- Embedding of `TechnicalAnalyzer.analyze` (lines 36-78) as a function of
the fetched bar series: raises `InsufficientDataError` below 50 bars,
otherwise assembles indicators, signals, support/resistance and trend.  The
indicator snapshot `ind` (the value of `_calculate_indicators`, a wrapper
over the external `ta` library whose failures are caught and degraded to an
empty snapshot) is abstracted as an argument; all remaining helpers catch
their own exceptions in the source, so no other error can escape. -/
def analyze (bars : List Bar) (ind : IndicatorSet) : Except AnalyzeError TechnicalResult :=
  if bars.length < 50 then .error .insufficientData
  else
    let sr := findSupportResistance bars 20
    let tr := determineTrend bars ind
    .ok { indicators := ind, signals := generateSignals bars ind,
          support_levels := sr.1, resistance_levels := sr.2,
          trend := tr.1, strength := tr.2 }

/-- The timeframe key "1h". -/
def tf1h : String := "1h"

/-- The timeframe key "4h". -/
def tf4h : String := "4h"

/-- The timeframe key "1d". -/
def tf1d : String := "1d"

/-- The timeframe key "7d". -/
def tf7d : String := "7d"

/-- Volatility dampening factor per timeframe
(`PricePredictor.timeframe_configs[..]['volatility_factor']`, lines 42-47,
read with default 1.0 at lines 378-379). -/
def volatilityFactor (timeframe : String) : ℚ :=
  if timeframe = "1h" then 1
  else if timeframe = "4h" then 0.6
  else if timeframe = "1d" then 0.4
  else if timeframe = "7d" then 0.3
  else 1

/-- Prediction-cache validity window in seconds per timeframe
(`PricePredictor.cache_duration`, lines 51-56, read with default 300 at line
340). -/
def cacheDuration (timeframe : String) : ℚ :=
  if timeframe = "1h" then 2 * 60
  else if timeframe = "4h" then 10 * 60
  else if timeframe = "1d" then 30 * 60
  else if timeframe = "7d" then 60 * 60
  else 300

/-- Smoothing weight placed on the previous cached predicted price when
blending (line 392: `0.3 if timeframe == '1h' else 0.6 if timeframe == '4h'
else 0.8`). -/
def smoothingFactor (timeframe : String) : ℚ :=
  if timeframe = "1h" then 0.3
  else if timeframe = "4h" then 0.6
  else 0.8

/-- Candidate predicted price after volatility dampening (lines 382-384):
`current + (predicted - current) * volatility_factor`. -/
def dampenedCandidate (currentPrice predictedRaw : ℚ) (timeframe : String) : ℚ :=
  currentPrice + (predictedRaw - currentPrice) * volatilityFactor timeframe

/-- Forecast record built by `PricePredictor._make_prediction` (lines
406-416); `features_used` is omitted (a constant list of column names). -/
structure PredictionResult where
  current_price : ℚ
  predicted_price : ℚ
  prediction_change : ℚ
  prediction_change_percent : ℚ
  confidence : ℚ
  model_used : String
  timeframe : String
  volatility_dampening : ℚ
deriving DecidableEq, Repr

/-- Prediction cache (`PricePredictor.prediction_cache`): map from a
(symbol, timeframe) key to a cached record and its store timestamp. -/
def PredictionCache : Type :=
  String × String → Option (PredictionResult × ℚ)

/-- Fresh-computation path of `_make_prediction` (lines 343-421, reached
when there is no valid cache entry): dampen the raw model change, blend with
a previous cached record if one exists (even a stale one), boost confidence
for the longer timeframes, and store the result in the cache keyed by
(symbol, timeframe) at the current time.  The raw model output inverted to
an absolute price (`prediction_actual` before dampening, lines 365-372) and
the base confidence (`_calculate_prediction_confidence`) depend on the
external model and the feature frame and are abstracted as the arguments
`predictedRaw` and `baseConf`. -/
def computeFresh (cache : PredictionCache) (now : ℚ) (symbol timeframe : String)
    (predictedRaw currentPrice baseConf : ℚ) : PredictionResult × PredictionCache :=
  let candidate := dampenedCandidate currentPrice predictedRaw timeframe
  let predicted :=
    match cache (symbol, timeframe) with
    | some (cached, _) =>
      candidate * (1 - smoothingFactor timeframe)
        + cached.predicted_price * smoothingFactor timeframe
    | none => candidate
  let change := predicted - currentPrice
  let confidence :=
    if timeframe = "4h" ∨ timeframe = "1d" ∨ timeframe = "7d"
    then min 0.95 (baseConf * 1.1) else baseConf
  let result : PredictionResult :=
    { current_price := currentPrice, predicted_price := predicted,
      prediction_change := change,
      prediction_change_percent := change / currentPrice * 100,
      confidence := confidence, model_used := "LSTM", timeframe := timeframe,
      volatility_dampening := volatilityFactor timeframe }
  (result, fun k => if k = (symbol, timeframe) then some (result, now) else cache k)

/-- Embedding of `PricePredictor._make_prediction` (lines 328-425): return
the cached record unchanged when one exists whose age is below the
timeframe's validity window, otherwise compute a fresh dampened and smoothed
record and replace the cache entry. -/
def makePrediction (cache : PredictionCache) (now : ℚ) (symbol timeframe : String)
    (predictedRaw currentPrice baseConf : ℚ) : PredictionResult × PredictionCache :=
  match cache (symbol, timeframe) with
  | some (cached, cacheTime) =>
    if now - cacheTime < cacheDuration timeframe then (cached, cache)
    else computeFresh cache now symbol timeframe predictedRaw currentPrice baseConf
  | none => computeFresh cache now symbol timeframe predictedRaw currentPrice baseConf

/-- Sentiment label vocabulary. -/
inductive SentimentLabel | positive | negative | neutral
deriving DecidableEq, Repr

/-- Aggregated sentiment record built by
`SentimentAnalyzer._aggregate_sentiment_results`; the nested
`analysis_details` counts are flattened into the three count fields. -/
structure SentimentAgg where
  sentiment_score : ℝ
  sentiment_label : SentimentLabel
  confidence : ℝ
  positive_count : ℕ
  negative_count : ℕ
  neutral_count : ℕ

/-- Mean of the compound scores (`np.mean`, line 322). -/
noncomputable def sentimentMean (scores : List ℝ) : ℝ :=
  scores.sum / scores.length

/-- Population standard deviation of the compound scores (`np.std`, line
325): the square root of the mean squared deviation from the mean. -/
noncomputable def sentimentStd (scores : List ℝ) : ℝ :=
  Real.sqrt ((scores.map (fun x => (x - sentimentMean scores) ^ 2)).sum / scores.length)

open scoped Classical in
/-- Embedding of `SentimentAnalyzer._aggregate_sentiment_results` (lines
306-353) over the list of per-text compound scores (the per-text scoring
itself wraps the external VADER/TextBlob scorers and is out of scope): an
empty input yields the neutral zero record, otherwise the aggregate score is
the mean, confidence is `max(0, 1 - std/2)`, the label is bucketed at plus
or minus 0.05, and the per-bucket counts use the same thresholds (neutral
count by subtraction, line 339).  The same neutral zero record is returned
by `analyze_sentiment` (lines 125-138) when no texts were gathered. -/
noncomputable def aggregateSentimentResults (scores : List ℝ) : SentimentAgg :=
  if scores = [] then
    { sentiment_score := 0, sentiment_label := .neutral, confidence := 0,
      positive_count := 0, negative_count := 0, neutral_count := 0 }
  else
    let avg := sentimentMean scores
    let label : SentimentLabel :=
      if avg ≥ 0.05 then .positive else if avg ≤ -0.05 then .negative else .neutral
    let pos := scores.countP (fun x => decide (x ≥ 0.05))
    let neg := scores.countP (fun x => decide (x ≤ -0.05))
    { sentiment_score := avg, sentiment_label := label,
      confidence := max 0 (1 - sentimentStd scores / 2),
      positive_count := pos, negative_count := neg,
      neutral_count := scores.length - pos - neg }

/-- Per-bucket RSI contribution in
`RecommendationEngine._calculate_technical_score` (lines 195-201). -/
def rsiContrib : RsiSig → ℚ
  | .oversold => 0.3
  | .overbought => -0.3
  | .neutral => 0

/-- Per-bucket MACD contribution (lines 203-209). -/
def macdContrib : MacdSig → ℚ
  | .bullish => 0.2
  | .bearish => -0.2
  | .neutral => 0

/-- Per-bucket moving-average-trend contribution (lines 211-221). -/
def maContrib : MaSig → ℚ
  | .strong_bullish => 0.4
  | .weak_bullish => 0.2
  | .weak_bearish => -0.2
  | .strong_bearish => -0.4
  | .neutral => 0

/-- Per-bucket Bollinger contribution (lines 223-229). -/
def bollContrib : BollSig → ℚ
  | .oversold => 0.2
  | .overbought => -0.2
  | .neutral => 0

/-- Trend/strength combination contribution (lines 231-239): a strong or
very strong trend aligned with a bullish (bearish) trend label adds
(subtracts) 0.3. -/
def trendContrib (trend : TrendLabel) (strength : StrengthSig) : ℚ :=
  if trend = .bullish ∧ (strength = .strong ∨ strength = .very_strong) then 0.3
  else if trend = .bearish ∧ (strength = .strong ∨ strength = .very_strong) then -0.3
  else 0

/-- Running score after the five counted factor buckets of
`_calculate_technical_score`, before the volume-confirmation adjustment. -/
def technicalBase (t : TechnicalResult) : ℚ :=
  rsiContrib t.signals.rsi + macdContrib t.signals.macd + maContrib t.signals.ma_trend
    + bollContrib t.signals.bollinger + trendContrib t.trend t.signals.trend_strength

/-- Volume-confirmation adjustment (lines 241-246): applied to the running
score `s` only when `s` is strictly positive (`score > 0` in the source for
both the high-volume and the low-volume branch). -/
def volumeAdjustment (v : VolumeSig) (s : ℚ) : ℚ :=
  if v = .high ∧ s > 0 then 0.1
  else if v = .low ∧ s > 0 then -0.1
  else 0

/-- Embedding of `RecommendationEngine._calculate_technical_score` (lines
186-248): each of the five buckets increments `factors` unconditionally, so
the divisor is always 5; the volume adjustment does not increment it. -/
def technicalScore (t : TechnicalResult) : ℚ :=
  let score := technicalBase t
  let factors : ℕ := 5
  let score := score + volumeAdjustment t.signals.volume score
  if factors > 0 then score / (factors : ℚ) else 0

/-- Sentiment record as consumed by the fusion engine (the fields of the
`analyze_sentiment` result it reads). -/
structure SentimentData where
  sentiment_score : ℝ
  confidence : ℝ

/-- Forecast record as consumed by the fusion engine (the fields of the
`predict_price` result it reads). -/
structure PredictionData where
  prediction_change_percent : ℝ
  confidence : ℝ

/-- Current-price record from `DataFetcher.get_current_price`. -/
structure PriceData where
  price : ℝ

/-- Analysis bundle assembled by `_gather_analysis_data`; a `none` component
is one whose gathering task raised. -/
structure AnalysisData where
  sentiment : Option SentimentData
  prediction : Option PredictionData
  technical : Option TechnicalResult
  price : Option PriceData
  ticker : Option ℝ

/-- Embedding of `RecommendationEngine._gather_analysis_data` (lines
112-143): the five analysis tasks run under
`asyncio.gather(..., return_exceptions=True)` and any task that raised is
degraded to `None` instead of aborting the bundle; the 24h ticker slot (a
list, unused downstream of the analyzed claims and abstracted to `ℝ`
records) additionally keeps only its first element when non-empty. -/
def gatherAnalysisData (rs : Except String SentimentData)
    (rp : Except String PredictionData) (rt : Except String TechnicalResult)
    (rpr : Except String PriceData) (rtk : Except String (List ℝ)) : AnalysisData :=
  { sentiment := rs.toOption, prediction := rp.toOption, technical := rt.toOption,
    price := rpr.toOption, ticker := rtk.toOption.bind List.head? }

/-- Component and fused scores (`_calculate_recommendation_scores`). -/
structure Scores where
  sentiment_score : ℝ
  technical_score : ℝ
  prediction_score : ℝ
  overall_score : ℝ

/-- Risk profile configuration (`RecommendationEngine.risk_configs`
entries, lines 23-51). -/
structure RiskConfig where
  min_confidence : ℝ
  max_position_size : ℝ
  stop_loss_percent : ℝ
  take_profit_percent : ℝ
  sentiment_weight : ℝ
  technical_weight : ℝ
  prediction_weight : ℝ

/-- The `low` risk profile (lines 24-32). -/
noncomputable def lowRisk : RiskConfig :=
  { min_confidence := 0.8, max_position_size := 0.1, stop_loss_percent := 0.05,
    take_profit_percent := 0.1, sentiment_weight := 0.2, technical_weight := 0.5,
    prediction_weight := 0.3 }

/-- The `medium` risk profile (lines 33-41). -/
noncomputable def mediumRisk : RiskConfig :=
  { min_confidence := 0.6, max_position_size := 0.2, stop_loss_percent := 0.08,
    take_profit_percent := 0.15, sentiment_weight := 0.3, technical_weight := 0.4,
    prediction_weight := 0.3 }

/-- The `high` risk profile (lines 42-50). -/
noncomputable def highRisk : RiskConfig :=
  { min_confidence := 0.4, max_position_size := 0.3, stop_loss_percent := 0.12,
    take_profit_percent := 0.25, sentiment_weight := 0.4, technical_weight := 0.3,
    prediction_weight := 0.3 }

/-- Embedding of `RecommendationEngine._calculate_prediction_score` (lines
254-267): `tanh(change_percent / 10) * confidence`. -/
noncomputable def predictionScore (p : PredictionData) : ℝ :=
  Real.tanh (p.prediction_change_percent / 10) * p.confidence

/-- Embedding of `RecommendationEngine._calculate_recommendation_scores`
(lines 145-184): each absent component contributes 0.0, and the overall
score is the risk-profile-weighted sum of the three component scores. -/
noncomputable def calculateRecommendationScores (d : AnalysisData) (cfg : RiskConfig) : Scores :=
  let sentimentSc : ℝ :=
    match d.sentiment with
    | some s => s.sentiment_score * s.confidence
    | none => 0
  let technicalSc : ℝ :=
    match d.technical with
    | some t => (technicalScore t : ℝ)
    | none => 0
  let predictionSc : ℝ :=
    match d.prediction with
    | some p => predictionScore p
    | none => 0
  { sentiment_score := sentimentSc, technical_score := technicalSc,
    prediction_score := predictionSc,
    overall_score := sentimentSc * cfg.sentiment_weight
      + technicalSc * cfg.technical_weight + predictionSc * cfg.prediction_weight }

/-- Recommendation action vocabulary. -/
inductive Action | buy | sell | hold
deriving DecidableEq, Repr

/-- Threshold decision of `_generate_final_recommendation` (lines 275-281):
buy above 0.3, sell below -0.3, hold otherwise. -/
noncomputable def decideAction (s : ℝ) : Action :=
  if s > 0.3 then .buy else if s < -0.3 then .sell else .hold

/-- Raw confidence of `_generate_final_recommendation` (line 284):
`min(0.95, |overall_score| + 0.1)`. -/
noncomputable def rawConfidence (s : ℝ) : ℝ :=
  min 0.95 (|s| + 0.1)

/-- Minimum-confidence override (lines 286-289): below the profile's
`min_confidence` the action is forced to hold with confidence 0.5. -/
noncomputable def applyMinConfidence (cfg : RiskConfig) (a : Action) (c : ℝ) : Action × ℝ :=
  if c < cfg.min_confidence then (.hold, 0.5) else (a, c)

open scoped Classical in
/-- Target-price and stop-loss computation (lines 297-306): only for a buy
or sell action with a truthy current price (Python truthiness: a price of
0.0 behaves like an absent one). -/
noncomputable def priceTargets (cfg : RiskConfig) (a : Action) (currentPrice : Option ℝ) :
    Option ℝ × Option ℝ :=
  match currentPrice with
  | some p =>
    if a = .buy ∧ p ≠ 0 then
      (some (p * (1 + cfg.take_profit_percent)), some (p * (1 - cfg.stop_loss_percent)))
    else if a = .sell ∧ p ≠ 0 then
      (some (p * (1 - cfg.take_profit_percent)), some (p * (1 + cfg.stop_loss_percent)))
    else (none, none)
  | none => (none, none)

open scoped Classical in
/-- Embedding of `RecommendationEngine._calculate_risk_reward_ratio` (lines
433-449) guarded by the call-site truthiness check of line 324: absent when
any of the three prices is absent or zero or the potential risk is zero. -/
noncomputable def riskReward (currentPrice targetPrice stopLoss : Option ℝ) : Option ℝ :=
  match currentPrice, targetPrice, stopLoss with
  | some c, some t, some s =>
    if c = 0 ∨ t = 0 ∨ s = 0 then none
    else if |c - s| = 0 then none
    else some (|t - c| / |c - s|)
  | _, _, _ => none

/-- Final recommendation record (lines 314-325); the free-text `reasoning`
and the `time_horizon` are omitted from the analyzed claims. -/
structure Recommendation where
  action : Action
  confidence : ℝ
  target_price : Option ℝ
  stop_loss : Option ℝ
  scores : Scores
  risk_reward : Option ℝ

/-- Embedding of `RecommendationEngine._generate_final_recommendation`
(lines 269-336): threshold decision on the overall score, raw confidence,
minimum-confidence override, then price targets from the current price. -/
noncomputable def generateFinalRecommendation (analysis : AnalysisData) (scores : Scores)
    (cfg : RiskConfig) : Recommendation :=
  let ac := applyMinConfidence cfg (decideAction scores.overall_score)
    (rawConfidence scores.overall_score)
  let currentPrice := analysis.price.map (·.price)
  let ts := priceTargets cfg ac.1 currentPrice
  { action := ac.1, confidence := ac.2, target_price := ts.1, stop_loss := ts.2,
    scores := scores, risk_reward := riskReward currentPrice ts.1 ts.2 }

/-- Empty indicator snapshot, the value `_calculate_indicators` degrades to
when its computation fails (line 188). -/
def emptyIndicators : IndicatorSet :=
  { sma_20 := none, sma_50 := none, macd := none, macd_signal := none, rsi := none,
    stoch_k := none, stoch_d := none, bb_upper := none, bb_lower := none,
    adx := none, adx_pos := none, adx_neg := none, volume_sma := none }

/-- The sample symbol of the spec's end-to-end scenario. -/
def sBTC : String := "BTCUSDT"

/-- A concrete forecast record used to exercise the cache behavior. -/
def samplePrediction : PredictionResult :=
  { current_price := 100, predicted_price := 104, prediction_change := 4,
    prediction_change_percent := 4, confidence := 0.7, model_used := "LSTM",
    timeframe := "1d", volatility_dampening := 0.4 }

/-- The empty prediction cache. -/
def emptyCache : PredictionCache := fun _ => none

/-- A cache holding `samplePrediction` for (BTCUSDT, 1d) stored at time 0. -/
def sampleCache : PredictionCache :=
  fun k => if k = (sBTC, tf1d) then some (samplePrediction, 0) else none

/-- A fully degraded analysis bundle: every gathering task failed. -/
def emptyAnalysis : AnalysisData :=
  { sentiment := none, prediction := none, technical := none, price := none, ticker := none }

/-- Scores with the overall score 0.25 of the spec's end-to-end scenario. -/
noncomputable def sampleScores : Scores :=
  { sentiment_score := 0, technical_score := 0, prediction_score := 0, overall_score := 0.25 }

/-- A 50-bar constant series, above the `analyze` minimum. -/
def bars50 : List Bar :=
  List.replicate 50 { high := 2, low := 1, close := 1, volume := 1 }

/-- C9: for every bar sequence shorter than the minimum of 50 bars,
`analyze` fails with `InsufficientDataError`; at or above the minimum it
returns a result without raising (every helper on the success path is total;
in the source they catch and degrade their own exceptions). -/
theorem c9_analyze_min_bars (bars : List Bar) (ind : IndicatorSet) :
    (bars.length < 50 → analyze bars ind = .error .insufficientData) ∧
    (50 ≤ bars.length → ∃ r, analyze bars ind = .ok r) := by
  constructor
  · intro h
    simp [analyze, h]
  · intro h
    exact ⟨_, by unfold analyze; rw [if_neg (Nat.not_lt.mpr h)]⟩

/-- Witness for C9 at two concrete inputs: the empty series errors out, a
50-bar series succeeds. -/
theorem c9_analyze_min_bars_witness :
    (([] : List Bar).length < 50 ∧ analyze [] emptyIndicators = .error .insufficientData) ∧
    (50 ≤ bars50.length ∧ ∃ r, analyze bars50 emptyIndicators = .ok r) :=
  ⟨⟨by decide, (c9_analyze_min_bars [] emptyIndicators).1 (by decide)⟩,
   ⟨by decide, (c9_analyze_min_bars bars50 emptyIndicators).2 (by decide)⟩⟩

/-- C3: the technical component score is the sum of the five fixed
per-bucket contributions plus the volume-confirmation adjustment, divided by
the factor count 5 (the volume adjustment does not add to the count), and
the volume adjustment is applied only when the running score is non-zero
(the source requires it to be strictly positive). -/
theorem c3_technical_score_buckets (t : TechnicalResult) :
    technicalScore t
      = (rsiContrib t.signals.rsi + macdContrib t.signals.macd
          + maContrib t.signals.ma_trend + bollContrib t.signals.bollinger
          + trendContrib t.trend t.signals.trend_strength
          + volumeAdjustment t.signals.volume (technicalBase t)) / 5 ∧
    (volumeAdjustment t.signals.volume (technicalBase t) = 0 ∨ technicalBase t ≠ 0) := by
  constructor
  · show technicalScore t = (technicalBase t + volumeAdjustment t.signals.volume (technicalBase t)) / 5
    norm_num [technicalScore]
  · unfold volumeAdjustment
    split_ifs with h1 h2
    · exact Or.inr (ne_of_gt h1.2)
    · exact Or.inr (ne_of_gt h2.2)
    · exact Or.inl rfl

/-- Bounds of the RSI bucket contribution. -/
theorem rsiContrib_bounds (r : RsiSig) : -0.3 ≤ rsiContrib r ∧ rsiContrib r ≤ 0.3 := by
  cases r <;> norm_num [rsiContrib]

/-- Bounds of the MACD bucket contribution. -/
theorem macdContrib_bounds (m : MacdSig) : -0.2 ≤ macdContrib m ∧ macdContrib m ≤ 0.2 := by
  cases m <;> norm_num [macdContrib]

/-- Bounds of the moving-average bucket contribution. -/
theorem maContrib_bounds (m : MaSig) : -0.4 ≤ maContrib m ∧ maContrib m ≤ 0.4 := by
  cases m <;> norm_num [maContrib]

/-- Bounds of the Bollinger bucket contribution. -/
theorem bollContrib_bounds (b : BollSig) : -0.2 ≤ bollContrib b ∧ bollContrib b ≤ 0.2 := by
  cases b <;> norm_num [bollContrib]

/-- Bounds of the trend/strength combination contribution. -/
theorem trendContrib_bounds (tr : TrendLabel) (st : StrengthSig) :
    -0.3 ≤ trendContrib tr st ∧ trendContrib tr st ≤ 0.3 := by
  unfold trendContrib
  split_ifs <;> norm_num

/-- Bounds of the running score before the volume adjustment. -/
theorem technicalBase_bounds (t : TechnicalResult) :
    -1.4 ≤ technicalBase t ∧ technicalBase t ≤ 1.4 := by
  obtain ⟨a1, a2⟩ := rsiContrib_bounds t.signals.rsi
  obtain ⟨b1, b2⟩ := macdContrib_bounds t.signals.macd
  obtain ⟨c1, c2⟩ := maContrib_bounds t.signals.ma_trend
  obtain ⟨d1, d2⟩ := bollContrib_bounds t.signals.bollinger
  obtain ⟨e1, e2⟩ := trendContrib_bounds t.trend t.signals.trend_strength
  unfold technicalBase
  constructor <;> linarith

/-- Shape of the volume adjustment: zero, or plus or minus 0.1 with a
strictly positive running score. -/
theorem volumeAdjustment_cases (v : VolumeSig) (s : ℚ) :
    volumeAdjustment v s = 0 ∨
      (0 < s ∧ (volumeAdjustment v s = 0.1 ∨ volumeAdjustment v s = -0.1)) := by
  unfold volumeAdjustment
  split_ifs with h1 h2
  · exact Or.inr ⟨h1.2, Or.inl rfl⟩
  · exact Or.inr ⟨h2.2, Or.inr rfl⟩
  · exact Or.inl rfl

/-- C10: the adjusted sum of contributions always lies in [-1.4, 1.5], the
divisor is always 5, and hence the technical component score lies in
[-0.3, 0.3] and can never strictly exceed the buy/sell thresholds. -/
theorem c10_technical_score_bounded (t : TechnicalResult) :
    technicalScore t
      = (technicalBase t + volumeAdjustment t.signals.volume (technicalBase t)) / 5 ∧
    -1.4 ≤ technicalBase t + volumeAdjustment t.signals.volume (technicalBase t) ∧
    technicalBase t + volumeAdjustment t.signals.volume (technicalBase t) ≤ 1.5 ∧
    -0.3 ≤ technicalScore t ∧ technicalScore t ≤ 0.3 := by
  have hb := technicalBase_bounds t
  have hv := volumeAdjustment_cases t.signals.volume (technicalBase t)
  have hsum : -1.4 ≤ technicalBase t + volumeAdjustment t.signals.volume (technicalBase t) ∧
      technicalBase t + volumeAdjustment t.signals.volume (technicalBase t) ≤ 1.5 := by
    rcases hv with h0 | ⟨hpos, h1 | h1⟩
    · rw [h0]
      constructor <;> linarith [hb.1, hb.2]
    · rw [h1]
      constructor <;> linarith [hb.1, hb.2]
    · rw [h1]
      constructor <;> linarith [hb.1, hb.2]
  have heq : technicalScore t
      = (technicalBase t + volumeAdjustment t.signals.volume (technicalBase t)) / 5 := by
    norm_num [technicalScore]
  refine ⟨heq, hsum.1, hsum.2, ?_, ?_⟩ <;> rw [heq] <;> linarith [hsum.1, hsum.2]

/-- The distinct ascending sort is strictly sorted. -/
theorem pySortedUnique_sorted_lt (l : List ℚ) : (pySortedUnique l).Sorted (· < ·) := by
  have hs : (pySortedUnique l).Sorted (· ≤ ·) := List.sorted_insertionSort _ _
  have hn : (pySortedUnique l).Nodup :=
    (List.perm_insertionSort _ l.dedup).nodup_iff.mpr l.nodup_dedup
  exact hs.lt_of_le hn

/-- C8 (amended): the support list is strictly ascending, deduplicated and
capped at 5 entries, and the resistance list is strictly descending,
deduplicated and capped at 5 entries (a support level need not lie below
every resistance level, see the counterexample). -/
theorem c8_support_resistance_shape (bars : List Bar) (window : ℕ) :
    (findSupportResistance bars window).1.Sorted (· < ·) ∧
    (findSupportResistance bars window).1.Nodup ∧
    (findSupportResistance bars window).1.length ≤ 5 ∧
    (findSupportResistance bars window).2.Sorted (· > ·) ∧
    (findSupportResistance bars window).2.Nodup ∧
    (findSupportResistance bars window).2.length ≤ 5 := by
  have hlen : ∀ l : List ℚ, (l.take 5).length ≤ 5 := by
    intro l
    rw [List.length_take]
    exact min_le_left _ _
  have hsup : (findSupportResistance bars window).1
      = (pySortedUnique ((List.range' window (bars.length - 2 * window)).filterMap fun i =>
          match (bars.map (·.low)).get? i with
          | some l => if (centeredWindow (bars.map (·.low)) window i).min? = some l
              then some l else none
          | none => none)).take 5 := by
    simp only [findSupportResistance]
  have hres : (findSupportResistance bars window).2
      = ((pySortedUnique ((List.range' window (bars.length - 2 * window)).filterMap fun i =>
          match (bars.map (·.high)).get? i with
          | some h => if (centeredWindow (bars.map (·.high)) window i).max? = some h
              then some h else none
          | none => none)).reverse).take 5 := by
    simp only [findSupportResistance]
  rw [hsup, hres]
  have hslt := pySortedUnique_sorted_lt ((List.range' window (bars.length - 2 * window)).filterMap fun i =>
    match (bars.map (·.low)).get? i with
    | some l => if (centeredWindow (bars.map (·.low)) window i).min? = some l
        then some l else none
    | none => none)
  have hrlt := pySortedUnique_sorted_lt ((List.range' window (bars.length - 2 * window)).filterMap fun i =>
    match (bars.map (·.high)).get? i with
    | some h => if (centeredWindow (bars.map (·.high)) window i).max? = some h
        then some h else none
    | none => none)
  have hrev : (pySortedUnique ((List.range' window (bars.length - 2 * window)).filterMap fun i =>
      match (bars.map (·.high)).get? i with
      | some h => if (centeredWindow (bars.map (·.high)) window i).max? = some h
          then some h else none
      | none => none)).reverse.Sorted (· > ·) := List.pairwise_reverse.mpr hrlt
  refine ⟨hslt.sublist (List.take_sublist _ _), ?_, hlen _,
    hrev.sublist (List.take_sublist _ _), ?_, hlen _⟩
  · exact ((hslt.sublist (List.take_sublist _ _)).nodup)
  · exact ((hrev.sublist (List.take_sublist _ _)).nodup)

set_option maxRecDepth 4000 in
/-- Concrete evaluation of the counterexample series: its support levels are
`[10, 95]` and its resistance levels `[100, 12]`. -/
theorem findSupportResistance_barsTrendingCx :
    findSupportResistance barsTrendingCx 20 = ([10, 95], [100, 12]) := by
  decide

set_option maxRecDepth 8000 in
/-- Counterexample to C8 as stated: on the trending 61-bar series both
lists are non-empty, yet the support level 95 is not strictly less than the
resistance level 12 (the series' support is `[10, 95]` and its resistance
`[100, 12]`). -/
theorem c8_support_resistance_cx :
    (findSupportResistance barsTrendingCx 20).1 ≠ [] ∧
    (findSupportResistance barsTrendingCx 20).2 ≠ [] ∧
    ¬ (∀ s ∈ (findSupportResistance barsTrendingCx 20).1,
        ∀ r ∈ (findSupportResistance barsTrendingCx 20).2, s < r) := by
  decide

/-- Cache-hit behavior of `_make_prediction`: a cached record younger than
the validity window is returned unchanged, and the cache is not written. -/
theorem makePrediction_cache_hit (cache : PredictionCache) (now : ℚ)
    (symbol timeframe : String) (predictedRaw currentPrice baseConf : ℚ)
    (cached : PredictionResult) (cacheTime : ℚ)
    (hc : cache (symbol, timeframe) = some (cached, cacheTime))
    (hfresh : now - cacheTime < cacheDuration timeframe) :
    makePrediction cache now symbol timeframe predictedRaw currentPrice baseConf
      = (cached, cache) := by
  simp only [makePrediction, hc, if_pos hfresh]

/-- After any `_make_prediction` call the cache entry at the call's key
holds exactly the returned record. -/
theorem makePrediction_stores (cache : PredictionCache) (now : ℚ)
    (symbol timeframe : String) (predictedRaw currentPrice baseConf : ℚ) :
    ∃ storeTime,
      (makePrediction cache now symbol timeframe predictedRaw currentPrice baseConf).2
          (symbol, timeframe)
        = some ((makePrediction cache now symbol timeframe predictedRaw currentPrice
            baseConf).1, storeTime) := by
  unfold makePrediction
  cases hc : cache (symbol, timeframe) with
  | none =>
    exact ⟨now, by simp [computeFresh, hc]⟩
  | some entry =>
    obtain ⟨cached, cacheTime⟩ := entry
    by_cases hfresh : now - cacheTime < cacheDuration timeframe
    · exact ⟨cacheTime, by simp [if_pos hfresh, hc]⟩
    · exact ⟨now, by simp [if_neg hfresh, computeFresh, hc]⟩

/-- C4: a cached forecast younger than the timeframe's validity window
(120 s for 1h, 600 s for 4h, 1800 s for 1d, 3600 s for 7d) is returned
unchanged with the cache left untouched; consequently a second call for the
same (symbol, timeframe) key made while the stored record is still within
the window returns the identical record. -/
theorem c4_forecast_cache_idempotent (cache : PredictionCache) (now : ℚ)
    (symbol timeframe : String) (predictedRaw currentPrice baseConf : ℚ) :
    (cacheDuration tf1h = 2 * 60 ∧ cacheDuration tf4h = 10 * 60 ∧
      cacheDuration tf1d = 30 * 60 ∧ cacheDuration tf7d = 60 * 60) ∧
    (∀ cached cacheTime, cache (symbol, timeframe) = some (cached, cacheTime) →
      now - cacheTime < cacheDuration timeframe →
      makePrediction cache now symbol timeframe predictedRaw currentPrice baseConf
        = (cached, cache)) ∧
    (∀ now2 predictedRaw2 currentPrice2 baseConf2 storeTime,
      (makePrediction cache now symbol timeframe predictedRaw currentPrice baseConf).2
          (symbol, timeframe)
        = some ((makePrediction cache now symbol timeframe predictedRaw currentPrice
            baseConf).1, storeTime) →
      now2 - storeTime < cacheDuration timeframe →
      (makePrediction
          (makePrediction cache now symbol timeframe predictedRaw currentPrice baseConf).2
          now2 symbol timeframe predictedRaw2 currentPrice2 baseConf2).1
        = (makePrediction cache now symbol timeframe predictedRaw currentPrice
            baseConf).1) := by
  refine ⟨?_, ?_, ?_⟩
  · exact ⟨by simp [cacheDuration, tf1h], by simp [cacheDuration, tf4h],
      by simp [cacheDuration, tf1d], by simp [cacheDuration, tf7d]⟩
  · intro cached cacheTime hc hfresh
    exact makePrediction_cache_hit cache now symbol timeframe predictedRaw currentPrice
      baseConf cached cacheTime hc hfresh
  · intro now2 predictedRaw2 currentPrice2 baseConf2 storeTime hstore hfresh
    rw [makePrediction_cache_hit _ now2 symbol timeframe predictedRaw2 currentPrice2
      baseConf2 _ storeTime hstore hfresh]

/-- Witness for C4: with a record for (BTCUSDT, 1d) cached at time 0, a call
at time 60 is a cache hit and returns the record unchanged. -/
theorem c4_forecast_cache_idempotent_witness :
    sampleCache (sBTC, tf1d) = some (samplePrediction, 0) ∧
    (60 : ℚ) - 0 < cacheDuration tf1d ∧
    makePrediction sampleCache 60 sBTC tf1d 200 100 0.7 = (samplePrediction, sampleCache) :=
  ⟨rfl, by simp [cacheDuration, tf1d],
    (c4_forecast_cache_idempotent sampleCache 60 sBTC tf1d 200 100 0.7).2.1
      samplePrediction 0 rfl (by simp [cacheDuration, tf1d])⟩

/-- Fresh-path predicted price with no previous cache entry: exactly the
dampened candidate. -/
theorem makePrediction_fresh_no_cache (cache : PredictionCache) (now : ℚ)
    (symbol timeframe : String) (predictedRaw currentPrice baseConf : ℚ)
    (hc : cache (symbol, timeframe) = none) :
    (makePrediction cache now symbol timeframe predictedRaw currentPrice
        baseConf).1.predicted_price
      = dampenedCandidate currentPrice predictedRaw timeframe := by
  simp only [makePrediction, hc, computeFresh]

/-- C5: the volatility dampening factors are 1.0, 0.6, 0.4, 0.3 for the
timeframes 1h, 4h, 1d, 7d, so the magnitude of the dampened change is
non-increasing along that order for any fixed raw model change; on a fresh
computation without a previous cache entry the predicted price is exactly
the current price plus the dampened change. -/
theorem c5_dampening_monotone :
    (volatilityFactor tf1h = 1 ∧ volatilityFactor tf4h = 0.6 ∧
      volatilityFactor tf1d = 0.4 ∧ volatilityFactor tf7d = 0.3) ∧
    (∀ rawChange : ℚ,
      |rawChange * volatilityFactor tf7d| ≤ |rawChange * volatilityFactor tf1d| ∧
      |rawChange * volatilityFactor tf1d| ≤ |rawChange * volatilityFactor tf4h| ∧
      |rawChange * volatilityFactor tf4h| ≤ |rawChange * volatilityFactor tf1h|) ∧
    (∀ (cache : PredictionCache) (now : ℚ) (symbol timeframe : String)
      (predictedRaw currentPrice baseConf : ℚ),
      cache (symbol, timeframe) = none →
      (makePrediction cache now symbol timeframe predictedRaw currentPrice
          baseConf).1.predicted_price
        = currentPrice + (predictedRaw - currentPrice) * volatilityFactor timeframe) := by
  have hv : volatilityFactor tf1h = 1 ∧ volatilityFactor tf4h = 0.6 ∧
      volatilityFactor tf1d = 0.4 ∧ volatilityFactor tf7d = 0.3 :=
    ⟨by simp [volatilityFactor, tf1h], by simp [volatilityFactor, tf4h],
      by simp [volatilityFactor, tf1d], by simp [volatilityFactor, tf7d]⟩
  refine ⟨hv, ?_, ?_⟩
  · intro rawChange
    rw [hv.1, hv.2.1, hv.2.2.1, hv.2.2.2]
    rw [abs_mul, abs_mul, abs_mul, abs_mul]
    refine ⟨?_, ?_, ?_⟩ <;>
      · apply mul_le_mul_of_nonneg_left _ (abs_nonneg rawChange)
        rw [abs_of_nonneg (by norm_num), abs_of_nonneg (by norm_num)]
        norm_num
  · intro cache now symbol timeframe predictedRaw currentPrice baseConf hc
    rw [makePrediction_fresh_no_cache cache now symbol timeframe predictedRaw currentPrice
      baseConf hc]
    rfl

/-- Witness for C5: a fresh 1d computation on the empty cache dampens the
raw change of 10 down to 4. -/
theorem c5_dampening_monotone_witness :
    emptyCache (sBTC, tf1d) = none ∧
    (makePrediction emptyCache 0 sBTC tf1d 110 100 0.7).1.predicted_price
      = 100 + (110 - 100) * volatilityFactor tf1d :=
  ⟨rfl, c5_dampening_monotone.2.2 emptyCache 0 sBTC tf1d 110 100 0.7 rfl⟩

/-- Fresh-path predicted price with a (stale) previous cache entry: the
dampened candidate blended with the cached predicted price under the
timeframe's smoothing weight. -/
theorem makePrediction_fresh_smoothed (cache : PredictionCache) (now : ℚ)
    (symbol timeframe : String) (predictedRaw currentPrice baseConf : ℚ)
    (cached : PredictionResult) (cacheTime : ℚ)
    (hc : cache (symbol, timeframe) = some (cached, cacheTime))
    (hstale : ¬ now - cacheTime < cacheDuration timeframe) :
    (makePrediction cache now symbol timeframe predictedRaw currentPrice
        baseConf).1.predicted_price
      = dampenedCandidate currentPrice predictedRaw timeframe
          * (1 - smoothingFactor timeframe)
        + cached.predicted_price * smoothingFactor timeframe := by
  simp only [makePrediction, hc, if_neg hstale, computeFresh]

/-- The smoothing weight is always in [0, 1]. -/
theorem smoothingFactor_bounds (timeframe : String) :
    0 ≤ smoothingFactor timeframe ∧ smoothingFactor timeframe ≤ 1 := by
  unfold smoothingFactor
  split_ifs <;> norm_num

/-- A convex blend lies between its two endpoints. -/
theorem blend_between (a b w : ℚ) (h0 : 0 ≤ w) (h1 : w ≤ 1) :
    min a b ≤ a * (1 - w) + b * w ∧ a * (1 - w) + b * w ≤ max a b := by
  rcases le_total a b with hab | hab
  · rw [min_eq_left hab, max_eq_right hab]
    constructor <;> nlinarith
  · rw [min_eq_right hab, max_eq_left hab]
    constructor <;> nlinarith

/-- C6: the smoothing weight on the old cached value is 0.3 for 1h, 0.6 for
4h and 0.8 otherwise, and whenever a previous cached record exists for the
key being recomputed, the blended predicted price lies between the raw
dampened candidate price and the previous cached predicted price. -/
theorem c6_smoothing_bounds :
    (smoothingFactor tf1h = 0.3 ∧ smoothingFactor tf4h = 0.6 ∧
      (∀ timeframe : String, timeframe ≠ tf1h → timeframe ≠ tf4h →
        smoothingFactor timeframe = 0.8)) ∧
    (∀ (cache : PredictionCache) (now : ℚ) (symbol timeframe : String)
      (predictedRaw currentPrice baseConf : ℚ)
      (cached : PredictionResult) (cacheTime : ℚ),
      cache (symbol, timeframe) = some (cached, cacheTime) →
      ¬ now - cacheTime < cacheDuration timeframe →
      min (dampenedCandidate currentPrice predictedRaw timeframe) cached.predicted_price
        ≤ (makePrediction cache now symbol timeframe predictedRaw currentPrice
            baseConf).1.predicted_price ∧
      (makePrediction cache now symbol timeframe predictedRaw currentPrice
          baseConf).1.predicted_price
        ≤ max (dampenedCandidate currentPrice predictedRaw timeframe)
            cached.predicted_price) := by
  constructor
  · refine ⟨by simp [smoothingFactor, tf1h], by simp [smoothingFactor, tf1h, tf4h], ?_⟩
    intro timeframe h1 h4
    simp only [smoothingFactor, tf1h, tf4h] at h1 h4 ⊢
    rw [if_neg h1, if_neg h4]
  · intro cache now symbol timeframe predictedRaw currentPrice baseConf cached cacheTime hc hstale
    rw [makePrediction_fresh_smoothed cache now symbol timeframe predictedRaw currentPrice
      baseConf cached cacheTime hc hstale]
    exact blend_between _ _ _ (smoothingFactor_bounds timeframe).1
      (smoothingFactor_bounds timeframe).2

/-- Witness for C6: recomputing (BTCUSDT, 1d) at time 10000 against the
stale record cached at time 0 yields a predicted price between the dampened
candidate and the cached prediction. -/
theorem c6_smoothing_bounds_witness :
    sampleCache (sBTC, tf1d) = some (samplePrediction, 0) ∧
    ¬ (10000 : ℚ) - 0 < cacheDuration tf1d ∧
    (min (dampenedCandidate 100 110 tf1d) samplePrediction.predicted_price
        ≤ (makePrediction sampleCache 10000 sBTC tf1d 110 100 0.7).1.predicted_price ∧
      (makePrediction sampleCache 10000 sBTC tf1d 110 100 0.7).1.predicted_price
        ≤ max (dampenedCandidate 100 110 tf1d) samplePrediction.predicted_price) :=
  ⟨rfl, by simp [cacheDuration, tf1d]; norm_num,
    c6_smoothing_bounds.2 sampleCache 10000 sBTC tf1d 110 100 0.7 samplePrediction 0 rfl
      (by simp [cacheDuration, tf1d]; norm_num)⟩

open scoped Classical in
/-- C7: sentiment aggregation over a list of per-text compound scores
returns the mean as the aggregate score, `max(0, 1 - std/2)` as the
confidence, a label that is positive iff the mean is at least 0.05,
negative iff it is at most -0.05 and neutral otherwise, and per-bucket
counts at the same thresholds (the neutral count by subtraction); the empty
input yields the neutral record with score 0, confidence 0 and zero counts,
and the aggregation is a total function (it never fails). -/
theorem c7_sentiment_aggregation (scores : List ℝ) :
    (scores ≠ [] →
      (aggregateSentimentResults scores).sentiment_score = sentimentMean scores ∧
      (aggregateSentimentResults scores).confidence
        = max 0 (1 - sentimentStd scores / 2) ∧
      ((aggregateSentimentResults scores).sentiment_label = .positive ↔
        0.05 ≤ sentimentMean scores) ∧
      ((aggregateSentimentResults scores).sentiment_label = .negative ↔
        sentimentMean scores ≤ -0.05) ∧
      ((aggregateSentimentResults scores).sentiment_label = .neutral ↔
        -0.05 < sentimentMean scores ∧ sentimentMean scores < 0.05) ∧
      (aggregateSentimentResults scores).positive_count
        = scores.countP (fun x => decide (x ≥ 0.05)) ∧
      (aggregateSentimentResults scores).negative_count
        = scores.countP (fun x => decide (x ≤ -0.05)) ∧
      (aggregateSentimentResults scores).neutral_count
        = scores.length - scores.countP (fun x => decide (x ≥ 0.05))
          - scores.countP (fun x => decide (x ≤ -0.05))) ∧
    aggregateSentimentResults []
      = { sentiment_score := 0, sentiment_label := .neutral, confidence := 0,
          positive_count := 0, negative_count := 0, neutral_count := 0 } := by
  constructor
  · intro h
    have he : aggregateSentimentResults scores
        = { sentiment_score := sentimentMean scores,
            sentiment_label :=
              if sentimentMean scores ≥ 0.05 then .positive
              else if sentimentMean scores ≤ -0.05 then .negative else .neutral,
            confidence := max 0 (1 - sentimentStd scores / 2),
            positive_count := scores.countP (fun x => decide (x ≥ 0.05)),
            negative_count := scores.countP (fun x => decide (x ≤ -0.05)),
            neutral_count := scores.length - scores.countP (fun x => decide (x ≥ 0.05))
              - scores.countP (fun x => decide (x ≤ -0.05)) } := by
      simp only [aggregateSentimentResults, if_neg h]
    rw [he]
    refine ⟨rfl, rfl, ?_, ?_, ?_, rfl, rfl, rfl⟩
    · split_ifs with h1 h2 <;> simp_all
    · split_ifs with h1 h2 <;> simp_all
      linarith
    · split_ifs with h1 h2 <;> simp_all
  · simp [aggregateSentimentResults]

open scoped Classical in
/-- Witness for C7 at the concrete score list `[0.1, 0.3]`. -/
theorem c7_sentiment_aggregation_witness :
    ([(0.1 : ℝ), 0.3] ≠ [] ∧
      ((aggregateSentimentResults [0.1, 0.3]).sentiment_score
          = sentimentMean [0.1, 0.3] ∧
        (aggregateSentimentResults [0.1, 0.3]).confidence
          = max 0 (1 - sentimentStd [0.1, 0.3] / 2) ∧
        ((aggregateSentimentResults [0.1, 0.3]).sentiment_label = .positive ↔
          0.05 ≤ sentimentMean [0.1, 0.3]) ∧
        ((aggregateSentimentResults [0.1, 0.3]).sentiment_label = .negative ↔
          sentimentMean [0.1, 0.3] ≤ -0.05) ∧
        ((aggregateSentimentResults [0.1, 0.3]).sentiment_label = .neutral ↔
          -0.05 < sentimentMean [0.1, 0.3] ∧ sentimentMean [0.1, 0.3] < 0.05) ∧
        (aggregateSentimentResults [0.1, 0.3]).positive_count
          = [(0.1 : ℝ), 0.3].countP (fun x => decide (x ≥ 0.05)) ∧
        (aggregateSentimentResults [0.1, 0.3]).negative_count
          = [(0.1 : ℝ), 0.3].countP (fun x => decide (x ≤ -0.05)) ∧
        (aggregateSentimentResults [0.1, 0.3]).neutral_count
          = [(0.1 : ℝ), 0.3].length
            - [(0.1 : ℝ), 0.3].countP (fun x => decide (x ≥ 0.05))
            - [(0.1 : ℝ), 0.3].countP (fun x => decide (x ≤ -0.05)))) :=
  ⟨by simp, (c7_sentiment_aggregation [0.1, 0.3]).1 (by simp)⟩

/-- C2: a failed gathering task degrades its component to absent instead of
aborting the bundle, an absent component contributes a score of exactly 0.0
to the fusion, and in the scenario with sentiment and technical absent but a
forecast with change percent 5 and confidence 0.8 under a profile with
prediction weight 0.3, the overall score is exactly
`tanh(0.5) * 0.8 * 0.3`. -/
theorem c2_component_failure_tolerance :
    (∀ (e : String) rp rt rpr rtk,
      (gatherAnalysisData (.error e) rp rt rpr rtk).sentiment = none) ∧
    (∀ rs (e : String) rt rpr rtk,
      (gatherAnalysisData rs (.error e) rt rpr rtk).prediction = none) ∧
    (∀ rs rp (e : String) rpr rtk,
      (gatherAnalysisData rs rp (.error e) rpr rtk).technical = none) ∧
    (∀ rs rp rt (e : String) rtk,
      (gatherAnalysisData rs rp rt (.error e) rtk).price = none) ∧
    (∀ rs rp rt rpr (e : String),
      (gatherAnalysisData rs rp rt rpr (.error e)).ticker = none) ∧
    (∀ (d : AnalysisData) (cfg : RiskConfig), d.sentiment = none →
      (calculateRecommendationScores d cfg).sentiment_score = 0) ∧
    (∀ (d : AnalysisData) (cfg : RiskConfig), d.technical = none →
      (calculateRecommendationScores d cfg).technical_score = 0) ∧
    (∀ (d : AnalysisData) (cfg : RiskConfig), d.prediction = none →
      (calculateRecommendationScores d cfg).prediction_score = 0) ∧
    (∀ (cfg : RiskConfig) (price : Option PriceData) (ticker : Option ℝ),
      cfg.prediction_weight = 0.3 →
      (calculateRecommendationScores
          { sentiment := none,
            prediction := some { prediction_change_percent := 5, confidence := 0.8 },
            technical := none, price := price, ticker := ticker } cfg).overall_score
        = Real.tanh 0.5 * 0.8 * 0.3) := by
  refine ⟨fun e rp rt rpr rtk => rfl, fun rs e rt rpr rtk => rfl,
    fun rs rp e rpr rtk => rfl, fun rs rp rt e rtk => rfl,
    fun rs rp rt rpr e => rfl, ?_, ?_, ?_, ?_⟩
  · intro d cfg h
    simp [calculateRecommendationScores, h]
  · intro d cfg h
    simp [calculateRecommendationScores, h]
  · intro d cfg h
    simp [calculateRecommendationScores, h]
  · intro cfg price ticker hw
    have h510 : (5 : ℝ) / 10 = 0.5 := by norm_num
    simp only [calculateRecommendationScores, predictionScore, hw]
    rw [h510]
    ring

/-- Witness for C2: the scenario instantiated at the medium risk profile
(prediction weight 0.3) with the price and ticker slots absent. -/
theorem c2_component_failure_tolerance_witness :
    mediumRisk.prediction_weight = 0.3 ∧
    (calculateRecommendationScores
        { sentiment := none,
          prediction := some { prediction_change_percent := 5, confidence := 0.8 },
          technical := none, price := none, ticker := none } mediumRisk).overall_score
      = Real.tanh 0.5 * 0.8 * 0.3 :=
  ⟨rfl, c2_component_failure_tolerance.2.2.2.2.2.2.2.2 mediumRisk none none rfl⟩

/-- C1: the recommendation decision is buy iff the overall score strictly
exceeds 0.3, sell iff it is strictly below -0.3 and hold otherwise (0.3
itself resolves to hold); the confidence is `min(0.95, |overall| + 0.1)`,
and whenever that confidence is below the profile's minimum confidence the
action is forced to hold with confidence exactly 0.5; in particular with the
low profile (minimum confidence 0.8) and overall score 0.25 the result is
hold with confidence 0.5 and no target price or stop loss. -/
theorem c1_recommendation_decision (analysis : AnalysisData) (scores : Scores)
    (cfg : RiskConfig) :
    (rawConfidence scores.overall_score = min 0.95 (|scores.overall_score| + 0.1)) ∧
    (cfg.min_confidence ≤ rawConfidence scores.overall_score →
      ((generateFinalRecommendation analysis scores cfg).action = .buy ↔
        0.3 < scores.overall_score) ∧
      ((generateFinalRecommendation analysis scores cfg).action = .sell ↔
        scores.overall_score < -0.3) ∧
      ((generateFinalRecommendation analysis scores cfg).action = .hold ↔
        -0.3 ≤ scores.overall_score ∧ scores.overall_score ≤ 0.3) ∧
      (generateFinalRecommendation analysis scores cfg).confidence
        = rawConfidence scores.overall_score) ∧
    (rawConfidence scores.overall_score < cfg.min_confidence →
      (generateFinalRecommendation analysis scores cfg).action = .hold ∧
      (generateFinalRecommendation analysis scores cfg).confidence = 0.5) ∧
    (scores.overall_score = 0.3 →
      (generateFinalRecommendation analysis scores cfg).action = .hold) ∧
    (scores.overall_score = 0.25 →
      (generateFinalRecommendation analysis scores lowRisk).action = .hold ∧
      (generateFinalRecommendation analysis scores lowRisk).confidence = 0.5 ∧
      (generateFinalRecommendation analysis scores lowRisk).target_price = none ∧
      (generateFinalRecommendation analysis scores lowRisk).stop_loss = none) := by
  have haction : ∀ c : RiskConfig, (generateFinalRecommendation analysis scores c).action
      = (applyMinConfidence c (decideAction scores.overall_score)
          (rawConfidence scores.overall_score)).1 := fun c => rfl
  have hconf : ∀ c : RiskConfig, (generateFinalRecommendation analysis scores c).confidence
      = (applyMinConfidence c (decideAction scores.overall_score)
          (rawConfidence scores.overall_score)).2 := fun c => rfl
  refine ⟨rfl, ?_, ?_, ?_, ?_⟩
  · intro h
    have hno : ¬ rawConfidence scores.overall_score < cfg.min_confidence := not_lt.mpr h
    rw [haction cfg, hconf cfg]
    unfold applyMinConfidence
    rw [if_neg hno]
    unfold decideAction
    split_ifs with hb hs
    · refine ⟨⟨fun _ => hb, fun _ => rfl⟩, ?_, ?_, rfl⟩
      · constructor
        · intro hcon
          exact hcon.elim
        · intro hcon
          exfalso
          linarith
      · constructor
        · intro hcon
          exact hcon.elim
        · intro hcon
          exfalso
          linarith [hcon.2]
    · refine ⟨?_, ⟨fun _ => hs, fun _ => rfl⟩, ?_, rfl⟩
      · constructor
        · intro hcon
          exact hcon.elim
        · intro hcon
          exact absurd hcon hb
      · constructor
        · intro hcon
          exact hcon.elim
        · intro hcon
          exfalso
          linarith [hcon.1]
    · refine ⟨?_, ?_, ⟨fun _ => ⟨le_of_not_lt hs, le_of_not_lt hb⟩, fun _ => rfl⟩, rfl⟩
      · constructor
        · intro hcon
          exact hcon.elim
        · intro hcon
          exact absurd hcon hb
      · constructor
        · intro hcon
          exact hcon.elim
        · intro hcon
          exact absurd hcon hs
  · intro h
    rw [haction cfg, hconf cfg]
    unfold applyMinConfidence
    rw [if_pos h]
    exact ⟨rfl, rfl⟩
  · intro h03
    rw [haction cfg]
    unfold applyMinConfidence
    split_ifs with hlt
    · rfl
    · unfold decideAction
      rw [h03]
      rw [if_neg (by norm_num), if_neg (by norm_num)]
  · intro h25
    have hraw : rawConfidence scores.overall_score = 0.35 := by
      rw [rawConfidence, h25]
      rw [abs_of_pos (by norm_num)]
      norm_num
    have hlt : rawConfidence scores.overall_score < lowRisk.min_confidence := by
      rw [hraw]
      show (0.35 : ℝ) < 0.8
      norm_num
    have hact : (generateFinalRecommendation analysis scores lowRisk).action = .hold := by
      rw [haction lowRisk]
      unfold applyMinConfidence
      rw [if_pos hlt]
    have hcf : (generateFinalRecommendation analysis scores lowRisk).confidence = 0.5 := by
      rw [hconf lowRisk]
      unfold applyMinConfidence
      rw [if_pos hlt]
    have htp : (generateFinalRecommendation analysis scores lowRisk).target_price
        = (priceTargets lowRisk
            (applyMinConfidence lowRisk (decideAction scores.overall_score)
              (rawConfidence scores.overall_score)).1
            (analysis.price.map (·.price))).1 := rfl
    have hsl : (generateFinalRecommendation analysis scores lowRisk).stop_loss
        = (priceTargets lowRisk
            (applyMinConfidence lowRisk (decideAction scores.overall_score)
              (rawConfidence scores.overall_score)).1
            (analysis.price.map (·.price))).2 := rfl
    have hach : (applyMinConfidence lowRisk (decideAction scores.overall_score)
        (rawConfidence scores.overall_score)).1 = .hold := by
      unfold applyMinConfidence
      rw [if_pos hlt]
    have hpt : ∀ cp : Option ℝ, priceTargets lowRisk .hold cp = (none, none) := by
      intro cp
      cases cp with
      | none => rfl
      | some p => simp [priceTargets]
    refine ⟨hact, hcf, ?_, ?_⟩
    · rw [htp, hach, hpt]
    · rw [hsl, hach, hpt]

/-- Witness for C1: the spec's end-to-end scenario on a fully degraded
bundle with overall score 0.25 under the low profile: hold, confidence 0.5,
no targets; and the override branch discharged at the same input. -/
theorem c1_recommendation_decision_witness :
    sampleScores.overall_score = 0.25 ∧
    ((generateFinalRecommendation emptyAnalysis sampleScores lowRisk).action = .hold ∧
      (generateFinalRecommendation emptyAnalysis sampleScores lowRisk).confidence = 0.5 ∧
      (generateFinalRecommendation emptyAnalysis sampleScores lowRisk).target_price = none ∧
      (generateFinalRecommendation emptyAnalysis sampleScores lowRisk).stop_loss = none) :=
  ⟨rfl, (c1_recommendation_decision emptyAnalysis sampleScores lowRisk).2.2.2.2 rfl⟩

end NeuroFi
